import Mathlib

/-!
Shallow embedding of `discord_emoji.py` (repository akx/discord-emoji).

Modelling conventions:
 - Python strings are Lean `String`; `str.isalnum` is modelled by
   `Char.isAlphanum` and `str.strip` by dropping whitespace characters
   (`Char.isWhitespace`) from both ends.
 - A filesystem path (`pathlib.Path`) is a list of path segments,
   `FsPath := List String`; the `/` operator is list append.
 - The filesystem visible to the downloader is an association list from
   paths to byte contents (bytes are `List Nat`); `Path.is_file` is
   modelled as presence of the path among the keys.
 - An HTTP response carries a numeric status code and its body bytes;
   `httpx.Response.raise_for_status` raises exactly when the status code
   is not a 2xx success code, and `httpx.codes.NOT_FOUND` is 404.
 - JSON values are the inductive `Json`; `json.dumps(..., sort_keys=True)`
   is modelled by recursively sorting object keys (`Json.sortKeysRec`);
   concrete text rendering (indentation, escaping) is abstracted away.
-/

namespace DiscordEmoji

/-- Characters kept by `clean_name_for_fs` (source line 41):
`c.isalnum() or c in " _-"`. -/
def keepChar (c : Char) : Bool :=
  c.isAlphanum || c == ' ' || c == '_' || c == '-'

/-- Python `str.strip`: remove leading and trailing whitespace. -/
def pyStrip (l : List Char) : List Char :=
  List.rdropWhile Char.isWhitespace (l.dropWhile Char.isWhitespace)

/-- Source lines 40-41:
`return "".join(c for c in name if c.isalnum() or c in " _-").strip()`. -/
def clean_name_for_fs (name : String) : String :=
  String.mk (pyStrip (name.data.filter keepChar))

/-- JSON values, the model of Python dicts/lists/scalars that the program
receives from the Discord API and serializes into `info.json`. -/
inductive Json where
  | null : Json
  | bool (b : Bool) : Json
  | num (n : Int) : Json
  | str (s : String) : Json
  | arr (elems : List Json) : Json
  | obj (fields : List (String × Json)) : Json

/-- Insert one key-value pair into a key-sorted field list (stable). -/
def insertSortedField (p : String × Json) : List (String × Json) → List (String × Json)
  | [] => [p]
  | q :: qs => if p.1 ≤ q.1 then p :: q :: qs else q :: insertSortedField p qs

/-- Stable insertion sort of object fields by key, the model of the key
ordering produced by `json.dumps(..., sort_keys=True)`. -/
def sortFields : List (String × Json) → List (String × Json)
  | [] => []
  | p :: ps => insertSortedField p (sortFields ps)

mutual
/-- Recursively sort all object keys: the shape of the output of
`json.dumps(guild, sort_keys=True, indent=2)` (source line 94), with the
concrete text rendering abstracted away. -/
def Json.sortKeysRec : Json → Json
  | .null => .null
  | .bool b => .bool b
  | .num n => .num n
  | .str s => .str s
  | .arr elems => .arr (Json.sortKeysArr elems)
  | .obj fields => .obj (sortFields (Json.sortKeysFields fields))

/-- Recursive key sorting mapped over an array's elements. -/
def Json.sortKeysArr : List Json → List Json
  | [] => []
  | j :: js => Json.sortKeysRec j :: Json.sortKeysArr js

/-- Recursive key sorting mapped over an object's field values. -/
def Json.sortKeysFields : List (String × Json) → List (String × Json)
  | [] => []
  | (k, v) :: fs => (k, Json.sortKeysRec v) :: Json.sortKeysFields fs
end

/-- A filesystem path (`pathlib.Path`), as a list of segments. -/
abbrev FsPath := List String

/-- Bytes of a downloaded asset or response body. -/
abbrev ByteContent := List Nat

/-- The local filesystem: an association list from file paths to contents. -/
abbrev Fs := List (FsPath × ByteContent)

/-- Look up a file by path (first match wins). -/
def flookup : Fs → FsPath → Option ByteContent
  | [], _ => none
  | (p, c) :: rest, path => if p = path then some c else flookup rest path

/-- One emoji record of a guild: the fields the program reads
(`emoji["id"]`, `emoji["name"]`, `emoji["animated"]`). -/
structure Emoji where
  id : String
  name : String
  animated : Bool
deriving DecidableEq

/-- One sticker record of a guild: the fields the program reads. -/
structure Sticker where
  id : String
  name : String
deriving DecidableEq

/-- A guild (collection) record: the fields the program reads, plus the
remaining fields of the raw API record (`extra`), kept so that the
`info.json` snapshot covers the full record. -/
structure Guild where
  name : String
  emojis : List Emoji
  stickers : List Sticker
  extra : List (String × Json)

/-- The guild record as the JSON value the API returned. -/
def Guild.toJson (g : Guild) : Json :=
  Json.obj
    ([("emojis", Json.arr (g.emojis.map (fun e =>
        Json.obj [("animated", Json.bool e.animated), ("id", Json.str e.id),
                  ("name", Json.str e.name)]))),
      ("name", Json.str g.name),
      ("stickers", Json.arr (g.stickers.map (fun s =>
        Json.obj [("id", Json.str s.id), ("name", Json.str s.name)])))]
      ++ g.extra)

/-- Source lines 31-33. -/
def get_emoji_url (emoji_id : String) (animated : Bool) : String :=
  "https://cdn.discordapp.com/emojis/" ++ emoji_id ++ "." ++
    (if animated then "gif" else "png") ++ "?v=1"

/-- Source lines 36-37. -/
def get_sticker_url (sticker_id : String) : String :=
  "https://media.discordapp.net/stickers/" ++ sticker_id ++ ".png?size=1024"

/-- Source lines 20-28: a frozen dataclass; `done` is the derived predicate
`dest_path.is_file()`, modelled below as `jobDone`. -/
structure DownloadJob where
  description : String
  source_url : String
  dest_path : FsPath
deriving DecidableEq

/-- The `done` property of a job (source lines 26-28): a file exists at
`dest_path`. -/
def jobDone (fs : Fs) (job : DownloadJob) : Bool :=
  (flookup fs job.dest_path).isSome

/-- Source lines 91-110, `get_downloads_from_guild_info`: returns the
metadata writes performed (the unconditional `info.json` overwrite of
line 94) and the emitted download jobs, in yield order. -/
def get_downloads_from_guild_info (root_path : FsPath) (guild : Guild) :
    List (FsPath × Json) × List DownloadJob :=
  let guild_path := root_path ++ [clean_name_for_fs guild.name]
  ([(guild_path ++ ["info.json"], Json.sortKeysRec guild.toJson)],
   guild.emojis.map (fun emoji =>
     { description := guild.name ++ ":" ++ emoji.name,
       source_url := get_emoji_url emoji.id emoji.animated,
       dest_path := guild_path ++
         ["emojis", clean_name_for_fs emoji.name ++ "." ++
           (if emoji.animated then "gif" else "png")] })
   ++ guild.stickers.map (fun sticker =>
     { description := guild.name ++ ":" ++ sticker.name,
       source_url := get_sticker_url sticker.id,
       dest_path := guild_path ++
         ["stickers", clean_name_for_fs sticker.name ++ ".png"] }))

/-- An HTTP response as the program observes it: status code and body. -/
structure Response where
  status_code : Nat
  content : ByteContent

/-- The numeric value of `httpx.codes.NOT_FOUND`. -/
def NOT_FOUND : Nat := 404

/-- The `is_success` predicate of httpx: `raise_for_status` raises exactly
when this is false. -/
def isSuccessCode (n : Nat) : Bool :=
  decide (200 ≤ n) && decide (n ≤ 299)

/-- Outcome of one `download_job` call: either a returned
`(job, success)` tuple (with the filesystem after the call, the warnings
logged, and whether a network fetch happened), or a raised
`HTTPStatusError` carrying the offending status code. -/
inductive StepOut where
  | ok (fs : Fs) (success : Bool) (warnings : List String) (fetched : Bool)
  | fatal (fs : Fs) (code : Nat) (fetched : Bool)
deriving DecidableEq

/-- Source lines 113-124, `download_job`, against a pure fetch oracle
`fetch : url to response`:
if `job.done`, return success without fetching; otherwise fetch the
source URL; on 404 log a warning and return not-ok; on any other
non-success status raise (`raise_for_status`); on success write the body
to `dest_path`. Directory creation (line 116) is invisible in a
file-level filesystem model. -/
def download_job (fetch : String → Response) (fs : Fs) (job : DownloadJob) : StepOut :=
  if jobDone fs job then
    StepOut.ok fs true [] false
  else
    let resp := fetch job.source_url
    if resp.status_code = NOT_FOUND then
      StepOut.ok fs false ["Not found: " ++ job.description] true
    else if isSuccessCode resp.status_code then
      StepOut.ok ((job.dest_path, resp.content) :: fs) true [] true
    else
      StepOut.fatal fs resp.status_code true

/-- State of the batch execution loop (source lines 189-199): the
filesystem, the results consumed so far, the warnings logged, the jobs
for which a network fetch was performed, and the fatal status code if a
job raised (which terminates the batch). -/
structure RunState where
  fs : Fs
  results : List (DownloadJob × Bool)
  warnings : List String
  fetched : List DownloadJob
  fatal : Option Nat
deriving DecidableEq

/-- Batch execution of the job list (a linearization of the
`ThreadPool(3)` / `imap_unordered` loop of source lines 192-199): jobs
are executed in turn against the evolving filesystem; a raising job
stops the batch, leaving the remaining jobs unexecuted. -/
def runJobs (fetch : String → Response) : RunState → List DownloadJob → RunState
  | st, [] => st
  | st, job :: rest =>
    match download_job fetch st.fs job with
    | StepOut.ok fs success warns f =>
        runJobs fetch
          { fs := fs,
            results := st.results ++ [(job, success)],
            warnings := st.warnings ++ warns,
            fetched := st.fetched ++ (if f then [job] else []),
            fatal := st.fatal } rest
    | StepOut.fatal fs code f =>
        { fs := fs,
          results := st.results,
          warnings := st.warnings,
          fetched := st.fetched ++ (if f then [job] else []),
          fatal := some code }

/-- The execution state at the start of the download phase. -/
def initState (fs : Fs) : RunState :=
  { fs := fs, results := [], warnings := [], fetched := [], fatal := none }

/-- Source line 185: `jobs = [job for job in jobs if not job.done]`. -/
def dedupJobs (fs : Fs) (jobs : List DownloadJob) : List DownloadJob :=
  jobs.filter (fun job => ! jobDone fs job)

/-- A Python dict of JSON data, as an association list (first key wins,
keys are unique in real API data). -/
abbrev Dict := List (String × Json)

/-- Python dict key lookup. -/
def dlookup : Dict → String → Option Json
  | [], _ => none
  | (k, v) :: rest, key => if k = key then some v else dlookup rest key

/-- Python dict union `a | b`: keys of `a` in order, with the value from
`b` when the key is also in `b`, followed by the keys only in `b`. -/
def pyUnion (a b : Dict) : Dict :=
  a.map (fun p => (p.1, (dlookup b p.1).getD p.2))
    ++ b.filter (fun p => (dlookup a p.1).isNone)

/-- Source lines 44-56, `get_my_guilds_info`, against a pure oracle
`detailForId` giving the detail record fetched for a guild id: for each
summary record of the listing response, look up its id (a `KeyError`
aborts, modelled as `none`), fetch the detail record, and yield
`guild | data`. -/
def get_my_guilds_info (detailForId : Json → Dict) : List Dict → Option (List Dict)
  | [] => some []
  | g :: gs =>
    match dlookup g "id" with
    | none => none
    | some gid =>
      match get_my_guilds_info detailForId gs with
      | none => none
      | some rest => some (pyUnion g (detailForId gid) :: rest)

/-- Parsed command-line arguments (source lines 136-154): `--my-guilds`
is a flag; `--guild-id` and `--source-emoji-id` take one or more integer
values and are `None` when absent. -/
structure Args where
  my_guilds : Bool
  guild_ids : Option (List Int)
  source_emoji_ids : Option (List Int)
deriving DecidableEq

/-- Python truthiness of an optional list: `None` and `[]` are falsy. -/
def truthyIds : Option (List Int) → Bool
  | none => false
  | some l => ! l.isEmpty

/-- The guild enumeration strategy chosen by `main`. -/
inductive GuildSource where
  | myGuilds : GuildSource
  | byGuildIds (ids : List Int) : GuildSource
  | bySourceEmojiIds (ids : List Int) : GuildSource
deriving DecidableEq

/-- Source lines 166-177: the selector chain of `main`.
`if args.my_guilds: ... elif args.guild_ids: ... elif
args.source_emoji_ids: ... else: ap.error(...)`; the result `none`
models the `ap.error("Don't know where to get emojis from")` usage
error, which fires before any guild is fetched. -/
def selectGuildSource (a : Args) : Option GuildSource :=
  if a.my_guilds then some GuildSource.myGuilds
  else if truthyIds a.guild_ids then some (GuildSource.byGuildIds (a.guild_ids.getD []))
  else if truthyIds a.source_emoji_ids then
    some (GuildSource.bySourceEmojiIds (a.source_emoji_ids.getD []))
  else none

/-- Number of selectors supplied (in the Python truthiness sense) on one
invocation. -/
def selectorCount (a : Args) : Nat :=
  (if a.my_guilds then 1 else 0) + (if truthyIds a.guild_ids then 1 else 0) +
    (if truthyIds a.source_emoji_ids then 1 else 0)

end DiscordEmoji

namespace DiscordEmoji

theorem mem_pyStrip {c : Char} {l : List Char} (h : c ∈ pyStrip l) : c ∈ l := by
  unfold pyStrip at h
  have h1 : c ∈ l.dropWhile Char.isWhitespace := by
    have hp := List.rdropWhile_prefix Char.isWhitespace (l.dropWhile Char.isWhitespace)
    exact hp.sublist.mem h
  exact (List.dropWhile_sublist Char.isWhitespace).mem h1

theorem pyStrip_head_not (l : List Char) (hl : pyStrip l ≠ []) :
    Char.isWhitespace ((pyStrip l).head hl) = false := by
  have hp : pyStrip l <+: l.dropWhile Char.isWhitespace :=
    List.rdropWhile_prefix Char.isWhitespace (l.dropWhile Char.isWhitespace)
  rw [hp.head hl]
  exact List.head_dropWhile_not Char.isWhitespace l _

theorem pyStrip_getLast_not (l : List Char) (hl : pyStrip l ≠ []) :
    Char.isWhitespace ((pyStrip l).getLast hl) = false := by
  unfold pyStrip at hl ⊢
  have := List.rdropWhile_last_not Char.isWhitespace (l.dropWhile Char.isWhitespace) hl
  simpa [Bool.not_eq_true] using this

theorem pyStrip_idem (l : List Char) : pyStrip (pyStrip l) = pyStrip l := by
  have h1 : (pyStrip l).dropWhile Char.isWhitespace = pyStrip l := by
    cases hz : pyStrip l with
    | nil => simp
    | cons a as =>
      have ha : Char.isWhitespace a = false := by
        have := pyStrip_head_not l (by rw [hz]; simp)
        simpa [hz] using this
      simp [List.dropWhile_cons, ha]
  show List.rdropWhile Char.isWhitespace ((pyStrip l).dropWhile Char.isWhitespace) = pyStrip l
  rw [h1]
  apply List.rdropWhile_eq_self_iff.mpr
  intro hne
  have := pyStrip_getLast_not l hne
  simp [this]

theorem filter_keepChar_pyStrip (d : List Char) :
    (pyStrip (d.filter keepChar)).filter keepChar = pyStrip (d.filter keepChar) := by
  apply List.filter_eq_self.mpr
  intro c hc
  have : c ∈ d.filter keepChar := mem_pyStrip hc
  exact List.of_mem_filter this

/-- Claim C6: `clean_name_for_fs` keeps only alphanumeric, space, underscore
and hyphen characters, removes leading and trailing whitespace, and maps
`" foo/bar:baz "` to `"foobarbaz"` (source lines 40-41). -/
theorem clean_name_for_fs_spec (s : String) :
    (∀ c ∈ (clean_name_for_fs s).data,
      c.isAlphanum = true ∨ c = ' ' ∨ c = '_' ∨ c = '-') ∧
    (∀ hl : (clean_name_for_fs s).data ≠ [],
      Char.isWhitespace ((clean_name_for_fs s).data.head hl) = false) ∧
    (∀ hl : (clean_name_for_fs s).data ≠ [],
      Char.isWhitespace ((clean_name_for_fs s).data.getLast hl) = false) ∧
    clean_name_for_fs (String.mk [' ', 'f', 'o', 'o', '/', 'b', 'a', 'r', ':', 'b', 'a', 'z', ' ']) =
      String.mk ['f', 'o', 'o', 'b', 'a', 'r', 'b', 'a', 'z'] := by
  refine ⟨?_, ?_, ?_, ?_⟩
  · intro c hc
    have hc' : c ∈ (s.data.filter keepChar) := mem_pyStrip hc
    have hk : keepChar c = true := List.of_mem_filter hc'
    unfold keepChar at hk
    simp only [Bool.or_eq_true, beq_iff_eq] at hk
    tauto
  · intro hl
    exact pyStrip_head_not (s.data.filter keepChar) hl
  · intro hl
    exact pyStrip_getLast_not (s.data.filter keepChar) hl
  · decide

/-- Witness for C6 at the concrete input `" foo/bar:baz "`. -/
theorem clean_name_for_fs_spec_witness :
    Char.isWhitespace ((clean_name_for_fs (String.mk [' ', 'f', 'o', 'o', '/', 'b', 'a', 'r', ':', 'b', 'a', 'z', ' '])).data.head (by decide)) = false ∧
    clean_name_for_fs (String.mk [' ', 'f', 'o', 'o', '/', 'b', 'a', 'r', ':', 'b', 'a', 'z', ' '])
      = String.mk ['f', 'o', 'o', 'b', 'a', 'r', 'b', 'a', 'z'] :=
  ⟨(clean_name_for_fs_spec (String.mk [' ', 'f', 'o', 'o', '/', 'b', 'a', 'r', ':', 'b', 'a', 'z', ' '])).2.1 (by decide),
   (clean_name_for_fs_spec (String.mk [' ', 'f', 'o', 'o', '/', 'b', 'a', 'r', ':', 'b', 'a', 'z', ' '])).2.2.2⟩

/-- Claim C10: `clean_name_for_fs` is idempotent. -/
theorem clean_name_for_fs_idempotent (s : String) :
    clean_name_for_fs (clean_name_for_fs s) = clean_name_for_fs s := by
  unfold clean_name_for_fs
  simp only [String.data]
  rw [filter_keepChar_pyStrip, pyStrip_idem]

/-- Claim C5: a job that is already done when `download_job` starts is
returned as a success, with no network fetch and no filesystem change
(source lines 114-115). -/
theorem download_job_short_circuit (fetch : String → Response) (fs : Fs) (job : DownloadJob)
    (h : jobDone fs job = true) :
    download_job fetch fs job = StepOut.ok fs true [] false := by
  unfold download_job
  simp [h]

/-- Witness for C5: a concrete filesystem already holding the job's file. -/
theorem download_job_short_circuit_witness :
    download_job (fun _ => { status_code := 500, content := [] })
      [(["download", "g", "emojis", "e.png"], [7])]
      { description := "g:e", source_url := "u",
        dest_path := ["download", "g", "emojis", "e.png"] } =
    StepOut.ok [(["download", "g", "emojis", "e.png"], [7])] true [] false :=
  download_job_short_circuit _ _ _ (by decide)

/-- Claim C2: a fetch answered 404 is a soft failure: `download_job` logs
one warning naming the job, returns `(job, False)`, leaves the
filesystem unchanged, does not raise, and the batch loop continues with
the remaining jobs (source lines 118-121). -/
theorem download_job_not_found (fetch : String → Response) (fs : Fs) (job : DownloadJob)
    (hdone : jobDone fs job = false)
    (hnf : (fetch job.source_url).status_code = NOT_FOUND) :
    download_job fetch fs job =
      StepOut.ok fs false ["Not found: " ++ job.description] true ∧
    ∀ (rest : List DownloadJob) (results : List (DownloadJob × Bool))
      (warns : List String) (fet : List DownloadJob),
      runJobs fetch
        { fs := fs, results := results, warnings := warns, fetched := fet, fatal := none }
        (job :: rest) =
      runJobs fetch
        { fs := fs, results := results ++ [(job, false)],
          warnings := warns ++ ["Not found: " ++ job.description],
          fetched := fet ++ [job], fatal := none } rest := by
  have h1 : download_job fetch fs job =
      StepOut.ok fs false ["Not found: " ++ job.description] true := by
    unfold download_job
    simp [hdone, hnf]
  refine ⟨h1, ?_⟩
  intro rest results warns fet
  simp only [runJobs]
  rw [h1]
  rfl

/-- Witness for C2: one 404 job followed by another job; the loop goes on. -/
theorem download_job_not_found_witness :
    download_job (fun _ => { status_code := 404, content := [] }) []
      { description := "g:e", source_url := "u", dest_path := ["p"] } =
    StepOut.ok [] false ["Not found: " ++ "g:e"] true :=
  (download_job_not_found (fun _ => { status_code := 404, content := [] }) []
    { description := "g:e", source_url := "u", dest_path := ["p"] }
    (by decide) (by decide)).1

/-- Claim C3: `download_job` raises if and only if the job was not done,
the response is not a success, and it is not a 404; a raise writes
nothing (the filesystem carried by the error is unchanged) and the raise
terminates the batch, abandoning all later jobs (source lines 113-124
and the pool loop of lines 192-199). -/
theorem download_job_fatal_iff (fetch : String → Response) (fs : Fs) (job : DownloadJob) :
    ((∃ fs2 code f, download_job fetch fs job = StepOut.fatal fs2 code f) ↔
      (jobDone fs job = false ∧
        isSuccessCode (fetch job.source_url).status_code = false ∧
        (fetch job.source_url).status_code ≠ NOT_FOUND)) ∧
    (∀ fs2 code f, download_job fetch fs job = StepOut.fatal fs2 code f →
      fs2 = fs ∧ code = (fetch job.source_url).status_code) ∧
    (jobDone fs job = false →
      isSuccessCode (fetch job.source_url).status_code = false →
      (fetch job.source_url).status_code ≠ NOT_FOUND →
      ∀ (rest : List DownloadJob) (results : List (DownloadJob × Bool))
        (warns : List String) (fet : List DownloadJob),
        runJobs fetch
          { fs := fs, results := results, warnings := warns, fetched := fet, fatal := none }
          (job :: rest) =
        { fs := fs, results := results, warnings := warns,
          fetched := fet ++ [job],
          fatal := some (fetch job.source_url).status_code }) := by
  refine ⟨⟨?_, ?_⟩, ?_, ?_⟩
  · rintro ⟨fs2, code, f, h⟩
    unfold download_job at h
    by_cases hd : jobDone fs job
    · simp [hd] at h
    · by_cases h4 : (fetch job.source_url).status_code = NOT_FOUND
      · simp [hd, h4] at h
      · by_cases hs : isSuccessCode (fetch job.source_url).status_code
        · simp [hd, h4, hs] at h
        · simp only [Bool.not_eq_true] at hd hs
          exact ⟨hd, hs, h4⟩
  · rintro ⟨hd, hs, h4⟩
    refine ⟨fs, (fetch job.source_url).status_code, true, ?_⟩
    unfold download_job
    simp [hd, hs, h4]
  · intro fs2 code f h
    unfold download_job at h
    by_cases hd : jobDone fs job
    · simp [hd] at h
    · by_cases h4 : (fetch job.source_url).status_code = NOT_FOUND
      · simp [hd, h4] at h
      · by_cases hs : isSuccessCode (fetch job.source_url).status_code
        · simp [hd, h4, hs] at h
        · simp only [Bool.not_eq_true] at hd hs
          simp [hd, hs, h4] at h
          exact ⟨h.1.symm, h.2.1.symm⟩
  · intro hd hs h4 rest results warns fet
    have h1 : download_job fetch fs job =
        StepOut.fatal fs (fetch job.source_url).status_code true := by
      unfold download_job
      simp [hd, hs, h4]
    simp only [runJobs]
    rw [h1]
    rfl

/-- Witness for C3: a 500 response raises, the batch stops, the second
job is never executed. -/
theorem download_job_fatal_iff_witness :
    runJobs (fun _ => { status_code := 500, content := [] })
      { fs := [], results := [], warnings := [], fetched := [], fatal := none }
      [{ description := "g:e", source_url := "u", dest_path := ["p"] },
       { description := "g:f", source_url := "v", dest_path := ["q"] }] =
    { fs := [], results := [], warnings := [],
      fetched := [{ description := "g:e", source_url := "u", dest_path := ["p"] }],
      fatal := some 500 } :=
  (download_job_fatal_iff (fun _ => { status_code := 500, content := [] }) []
      { description := "g:e", source_url := "u", dest_path := ["p"] }).2.2
    (by decide) (by decide) (by decide)
    [{ description := "g:f", source_url := "v", dest_path := ["q"] }] [] [] []

theorem runJobs_fetched_mem (fetch : String → Response) (jobs : List DownloadJob) :
    ∀ (st : RunState) (j : DownloadJob),
      j ∈ (runJobs fetch st jobs).fetched → j ∈ st.fetched ∨ j ∈ jobs := by
  induction jobs with
  | nil =>
    intro st j h
    exact Or.inl h
  | cons job rest ih =>
    intro st j h
    simp only [runJobs] at h
    cases hc : download_job fetch st.fs job with
    | ok fs success warns f =>
      rw [hc] at h
      rcases ih _ j h with h1 | h1
      · simp only [List.mem_append] at h1
        rcases h1 with h1 | h1
        · exact Or.inl h1
        · cases f with
          | false => simp at h1
          | true =>
            simp only [if_pos, List.mem_singleton] at h1
            simp [h1]
      · exact Or.inr (List.mem_cons_of_mem _ h1)
    | fatal fs code f =>
      rw [hc] at h
      simp only [List.mem_append] at h
      rcases h with h1 | h1
      · exact Or.inl h1
      · cases f with
        | false => simp at h1
        | true =>
          simp only [if_pos, List.mem_singleton] at h1
          simp [h1]

/-- Claim C1: the dedup filter of source line 185 keeps exactly the jobs
whose `done` predicate is false (it is an order-preserving sub-selection
of the accumulated list), and a job whose destination file already
exists is excluded and is never fetched when the filtered work set is
executed. -/
theorem dedup_filter_spec (fetch : String → Response) (fs : Fs)
    (jobs : List DownloadJob) (j : DownloadJob) :
    (j ∈ dedupJobs fs jobs ↔ (j ∈ jobs ∧ jobDone fs j = false)) ∧
    List.Sublist (dedupJobs fs jobs) jobs ∧
    (jobDone fs j = true →
      j ∉ (runJobs fetch (initState fs) (dedupJobs fs jobs)).fetched) := by
  have hmem : j ∈ dedupJobs fs jobs ↔ (j ∈ jobs ∧ jobDone fs j = false) := by
    simp [dedupJobs, List.mem_filter]
  refine ⟨hmem, List.filter_sublist _, ?_⟩
  intro hd hfet
  rcases runJobs_fetched_mem fetch _ _ j hfet with h1 | h1
  · simp [initState] at h1
  · have := (hmem.mp h1).2
    rw [hd] at this
    cases this

/-- Witness for C1: a job whose file pre-exists is filtered out and
triggers no fetch. -/
theorem dedup_filter_spec_witness :
    { description := "g:e", source_url := "u", dest_path := ["p"] } ∉
      (runJobs (fun _ => { status_code := 200, content := [1] })
        (initState [(["p"], [])])
        (dedupJobs [(["p"], [])]
          [{ description := "g:e", source_url := "u", dest_path := ["p"] }])).fetched :=
  (dedup_filter_spec (fun _ => { status_code := 200, content := [1] }) [(["p"], [])]
    [{ description := "g:e", source_url := "u", dest_path := ["p"] }]
    { description := "g:e", source_url := "u", dest_path := ["p"] }).2.2 (by decide)

/-- Claim C4: the job builder emits exactly one job per emoji and one per
sticker, in that order: emojis go under `emojis/` with extension `gif`
when animated and `png` otherwise, stickers under `stickers/` with
extension `png`, all under the sanitized guild directory (source lines
91-110). -/
theorem get_downloads_jobs_spec (root_path : FsPath) (guild : Guild) :
    (get_downloads_from_guild_info root_path guild).2.length =
      guild.emojis.length + guild.stickers.length ∧
    (get_downloads_from_guild_info root_path guild).2 =
      guild.emojis.map (fun emoji =>
        { description := guild.name ++ ":" ++ emoji.name,
          source_url := get_emoji_url emoji.id emoji.animated,
          dest_path := root_path ++ [clean_name_for_fs guild.name] ++
            ["emojis", clean_name_for_fs emoji.name ++ "." ++
              (if emoji.animated then "gif" else "png")] })
      ++ guild.stickers.map (fun sticker =>
        { description := guild.name ++ ":" ++ sticker.name,
          source_url := get_sticker_url sticker.id,
          dest_path := root_path ++ [clean_name_for_fs guild.name] ++
            ["stickers", clean_name_for_fs sticker.name ++ ".png"] }) := by
  constructor
  · simp [get_downloads_from_guild_info]
  · rfl

/-- Claim C7: the builder's only metadata write is the `info.json`
overwrite with the full record, keys sorted; it happens even when every
asset job of the guild is already done, because the write is not guarded
by the dedup logic (source line 94 versus line 185). -/
theorem info_json_always_written (root_path : FsPath) (guild : Guild) (fs : Fs) :
    (get_downloads_from_guild_info root_path guild).1 =
      [(root_path ++ [clean_name_for_fs guild.name] ++ ["info.json"],
        Json.sortKeysRec guild.toJson)] ∧
    ((∀ j ∈ (get_downloads_from_guild_info root_path guild).2, jobDone fs j = true) →
      (root_path ++ [clean_name_for_fs guild.name] ++ ["info.json"],
        Json.sortKeysRec guild.toJson) ∈
        (get_downloads_from_guild_info root_path guild).1) := by
  refine ⟨rfl, fun _ => ?_⟩
  simp [get_downloads_from_guild_info]

/-- Witness for C7: a guild whose single emoji is already downloaded
still gets its `info.json` write. -/
theorem info_json_always_written_witness :
    ([] ++ [clean_name_for_fs "g"] ++ ["info.json"],
      Json.sortKeysRec (Guild.toJson
        { name := "g", emojis := [{ id := "1", name := "e", animated := false }],
          stickers := [], extra := [] })) ∈
    (get_downloads_from_guild_info []
      { name := "g", emojis := [{ id := "1", name := "e", animated := false }],
        stickers := [], extra := [] }).1 :=
  (info_json_always_written []
    { name := "g", emojis := [{ id := "1", name := "e", animated := false }],
      stickers := [], extra := [] }
    [(["g", "emojis", "e.png"], [])]).2 (by decide)

theorem dlookup_append_some {a : Dict} {k : String} {v : Json} (b : Dict)
    (h : dlookup a k = some v) : dlookup (a ++ b) k = some v := by
  induction a with
  | nil => simp [dlookup] at h
  | cons p rest ih =>
    simp only [List.cons_append, dlookup] at h ⊢
    by_cases hk : p.1 = k
    · simpa [hk] using h
    · simp only [hk, if_false] at h ⊢
      exact ih h

theorem dlookup_append_none {a : Dict} {k : String} (b : Dict)
    (h : dlookup a k = none) : dlookup (a ++ b) k = dlookup b k := by
  induction a with
  | nil => rfl
  | cons p rest ih =>
    simp only [List.cons_append, dlookup] at h ⊢
    by_cases hk : p.1 = k
    · simp [hk] at h
    · simp only [hk, if_false] at h ⊢
      exact ih h

theorem dlookup_map_override (a b : Dict) (k : String) {w : Json}
    (h : dlookup a k = some w) :
    dlookup (a.map (fun p => (p.1, (dlookup b p.1).getD p.2))) k =
      some ((dlookup b k).getD w) := by
  induction a with
  | nil => simp [dlookup] at h
  | cons p rest ih =>
    simp only [List.map_cons, dlookup] at h ⊢
    by_cases hk : p.1 = k
    · simp only [hk, if_true, if_pos] at h ⊢
      simp only [Option.some.injEq] at h
      rw [← h]
    · simp only [hk, if_false] at h ⊢
      exact ih h

theorem dlookup_map_none (a b : Dict) (k : String)
    (h : dlookup a k = none) :
    dlookup (a.map (fun p => (p.1, (dlookup b p.1).getD p.2))) k = none := by
  induction a with
  | nil => rfl
  | cons p rest ih =>
    simp only [List.map_cons, dlookup] at h ⊢
    by_cases hk : p.1 = k
    · simp [hk] at h
    · simp only [hk, if_false] at h ⊢
      exact ih h

theorem dlookup_filter_only (a b : Dict) (k : String)
    (h : dlookup a k = none) :
    dlookup (b.filter (fun p => (dlookup a p.1).isNone)) k = dlookup b k := by
  induction b with
  | nil => rfl
  | cons p rest ih =>
    simp only [List.filter_cons]
    by_cases hk : p.1 = k
    · have hp : (dlookup a p.1).isNone = true := by
        rw [hk, h]
        rfl
      simp only [hp, if_pos]
      simp [dlookup, hk]
    · cases hc : (dlookup a p.1).isNone with
      | false =>
        simp only [hc, Bool.false_eq_true, if_false]
        rw [ih]
        simp [dlookup, hk]
      | true =>
        simp only [hc, if_pos]
        simp only [dlookup, hk, if_false]
        exact ih

theorem pyUnion_right_wins (a b : Dict) (k : String) (v : Json)
    (h : dlookup b k = some v) : dlookup (pyUnion a b) k = some v := by
  unfold pyUnion
  cases ha : dlookup a k with
  | some w =>
    have h1 := dlookup_map_override a b k ha
    rw [h] at h1
    exact dlookup_append_some _ h1
  | none =>
    have h1 := dlookup_map_none a b k ha
    rw [dlookup_append_none _ h1, dlookup_filter_only a b k ha]
    exact h

/-- Claim C8: under the self-owned strategy, each yielded record is
`summary | detail`, the Python dict union in which the detail record's
value wins for every key present in both (source lines 44-56). -/
theorem my_guilds_merge (detailForId : Json → Dict) (guilds merged : List Dict)
    (h : get_my_guilds_info detailForId guilds = some merged) :
    List.Forall₂ (fun g m => ∃ gid, dlookup g "id" = some gid ∧
      m = pyUnion g (detailForId gid) ∧
      ∀ key v, dlookup (detailForId gid) key = some v → dlookup m key = some v)
      guilds merged := by
  induction guilds generalizing merged with
  | nil =>
    simp only [get_my_guilds_info, Option.some.injEq] at h
    rw [← h]
    exact List.Forall₂.nil
  | cons g gs ih =>
    simp only [get_my_guilds_info] at h
    cases hid : dlookup g "id" with
    | none => rw [hid] at h; cases h
    | some gid =>
      rw [hid] at h
      cases hrest : get_my_guilds_info detailForId gs with
      | none => rw [hrest] at h; cases h
      | some rest =>
        rw [hrest] at h
        simp only [Option.some.injEq] at h
        rw [← h]
        refine List.Forall₂.cons ⟨gid, hid, rfl, ?_⟩ (ih _ hrest)
        intro key v hv
        exact pyUnion_right_wins g (detailForId gid) key v hv

/-- Witness for C8: one guild whose summary and detail share the key
`"a"`; the merged record carries the detail value. -/
theorem my_guilds_merge_witness :
    List.Forall₂ (fun g m => ∃ gid, dlookup g "id" = some gid ∧
      m = pyUnion g ((fun _ => [("a", Json.num 2)]) gid) ∧
      ∀ key v, dlookup ((fun _ => [("a", Json.num 2)]) gid) key = some v →
        dlookup m key = some v)
      [[("id", Json.num 1), ("a", Json.num 0)]]
      [[("id", Json.num 1), ("a", Json.num 2)]] :=
  my_guilds_merge (fun _ => [("a", Json.num 2)])
    [[("id", Json.num 1), ("a", Json.num 0)]]
    [[("id", Json.num 1), ("a", Json.num 2)]] rfl

/-- Counterexample to claim C9 as stated: supplying two selectors
(`--my-guilds` together with `--guild-id 1`) is not reported as a usage
error; `main` silently picks the self-owned strategy (source lines
166-177 have no mutual-exclusion check). -/
theorem selector_multi_no_error :
    selectorCount { my_guilds := true, guild_ids := some [1], source_emoji_ids := none } = 2 ∧
    selectGuildSource { my_guilds := true, guild_ids := some [1], source_emoji_ids := none } =
      some GuildSource.myGuilds :=
  ⟨rfl, rfl⟩

/-- Claim C9 as amended: the usage error fires exactly when no selector
is supplied; when one or more are supplied, no error is raised and the
first one in the priority order self-owned flag, collection ids, asset
ids is used. -/
theorem selector_amended (a : Args) :
    (selectGuildSource a = none ↔
      (a.my_guilds = false ∧ truthyIds a.guild_ids = false ∧
        truthyIds a.source_emoji_ids = false)) ∧
    (selectGuildSource a = none ↔ selectorCount a = 0) ∧
    (a.my_guilds = true → selectGuildSource a = some GuildSource.myGuilds) ∧
    (a.my_guilds = false → truthyIds a.guild_ids = true →
      selectGuildSource a = some (GuildSource.byGuildIds (a.guild_ids.getD []))) ∧
    (a.my_guilds = false → truthyIds a.guild_ids = false →
      truthyIds a.source_emoji_ids = true →
      selectGuildSource a = some (GuildSource.bySourceEmojiIds (a.source_emoji_ids.getD []))) := by
  unfold selectGuildSource selectorCount
  by_cases h1 : a.my_guilds <;> by_cases h2 : truthyIds a.guild_ids <;>
    by_cases h3 : truthyIds a.source_emoji_ids <;> simp [h1, h2, h3]

/-- Witness for C9 (amended): no selector yields the usage error; the
self-owned flag alone yields the self-owned strategy. -/
theorem selector_amended_witness :
    selectGuildSource { my_guilds := false, guild_ids := none, source_emoji_ids := none } = none ∧
    selectGuildSource { my_guilds := true, guild_ids := none, source_emoji_ids := none } =
      some GuildSource.myGuilds :=
  ⟨(selector_amended { my_guilds := false, guild_ids := none, source_emoji_ids := none }).1.mpr
      (by decide),
   (selector_amended { my_guilds := true, guild_ids := none, source_emoji_ids := none }).2.2.1
      (by decide)⟩

end DiscordEmoji
